import Mathlib

/-!
Shallow embedding of the credential-and-session authentication subsystem of
`innowise-lab-internship` (`src/server/src/auth/authentication.service.ts`:
the `authenticationService` object and the `authController` routes for
`/register`, `/login`, `/logout`).

Modelling conventions:
* bcrypt is idealized as a salted injective one-way digest: `bcrypt.hash(p, 10)`
  becomes a `BcryptHash` record carrying its cost (10), its salt and the digest,
  and `bcrypt.compare` recomputes the digest against the stored salt.
* A JWT is modelled as a record carrying the signed payload, issued-at and
  expiry instants (seconds), and the signing secret; "signature verifies under
  secret s" is modelled as "the token was signed with s" (ideal unforgeable MAC).
* The Session Registry (`Token` rows, one `{token, user_id}` row per session)
  is a list of rows; `Token.create(...).save()` is list insertion.
* Express handlers become pure functions from store state and request data to a
  `Response` plus the persistence effects they trigger.  Calls the source makes
  WITHOUT `await` (`createUser` in `/register`, `createToken` in `/login`) are
  returned as pending effects, applied to the store only after the response is
  produced, mirroring the fire-and-forget call sites.
-/

/-- The minimal identity claim embedded in tokens (`IUserPayload`): {id, login}. -/
structure UserPayload where
  id : Nat
  login : String
deriving DecidableEq, Repr

/-- Idealized bcrypt output: the stored hash string `$2b$<cost>$<salt><digest>`
viewed through its parsed components.  `bcrypt.hash(password, 10)` in
`authenticationService.hashPassword` produces one of these with `cost = 10`. -/
structure BcryptHash where
  cost : Nat
  salt : String
  digest : String
deriving DecidableEq, Repr

/-- Idealized bcrypt digest: deterministic in (password, salt) and injective in
the password for a fixed salt, standing in for the one-way Blowfish-based
key derivation. -/
def bcryptDigest (password salt : String) : String :=
  salt ++ password

/-- Model of `bcrypt.hash(password, cost)` with an explicit salt (bcrypt draws the salt
randomly; the model passes it explicitly). -/
def bcryptHash (password : String) (cost : Nat) (salt : String) : BcryptHash :=
  ⟨cost, salt, bcryptDigest password salt⟩

/-- Model of `bcrypt.compare(password, storedHash)`: recompute the digest with the salt
embedded in the stored hash and compare. -/
def bcryptCompare (password : String) (h : BcryptHash) : Bool :=
  bcryptDigest password h.salt == h.digest

/-- The stored hash rendered as the string bcrypt actually returns
(`$2b$cost$saltdigest`); used to compare the hash with the plaintext. -/
def formatBcryptHash (h : BcryptHash) : String :=
  "$2b$" ++ toString h.cost ++ "$" ++ h.salt ++ h.digest

/-- Source `authenticationService.hashPassword`: `bcrypt.hash(password, 10)`. -/
def hashPassword (password : String) (salt : String) : BcryptHash :=
  bcryptHash password 10 salt

/-- A `User` row (`users.model`): numeric id, unique login, stored password hash. -/
structure User where
  id : Nat
  login : String
  password : BcryptHash
deriving DecidableEq, Repr

/-- Source `authenticationService.comparePasswords(user, password)`:
`bcrypt.compare(password, user.password)`. -/
def comparePasswords (user : User) (password : String) : Bool :=
  bcryptCompare password user.password

/-- Source `authenticationService.getUserByLogin` / `findUser`:
`User.findOne({ where: { login } })`. -/
def getUserByLogin (users : List User) (login : String) : Option User :=
  users.find? (fun u => u.login == login)

/-- A signed JWT (`jwt.sign(payload, secret, { expiresIn })`): the payload, the
issued-at and expiry instants in seconds, and the secret whose MAC it carries. -/
structure Jwt where
  payload : UserPayload
  iat : Nat
  exp : Nat
  secret : String
deriving DecidableEq, Repr

/-- Model of `jwt.sign(payload, secret, expiresIn)` at instant `now`. -/
def jwtSign (payload : UserPayload) (secret : String) (lifetime : Nat) (now : Nat) : Jwt :=
  ⟨payload, now, now + lifetime, secret⟩

/-- Model of `jwt.verify(token, secret)` at instant `now`: signature check (the token
was minted under `secret`) plus expiry check; returns the embedded payload on
success and `none` on any failure. -/
def jwtVerify (t : Jwt) (secret : String) (now : Nat) : Option UserPayload :=
  if t.secret = secret ∧ now < t.exp then some t.payload else none

/-- The access-token lifetime, `expiresIn: 10s`, in seconds. -/
def accessLifetime : Nat := 10

/-- The refresh-token lifetime, `expiresIn: 15d`, in seconds. -/
def refreshLifetime : Nat := 15 * 24 * 60 * 60

/-- Environment configuration as the source reads it: `process.env` may or may
not define each secret. -/
structure Env where
  accessSecretToken : Option String
  refreshSecretToken : Option String
deriving DecidableEq, Repr

/-- Why `jwt.sign` can fail at a call site. -/
inductive SignError where
  | missingSecret
deriving DecidableEq, Repr

/-- Source `authenticationService.signAccessToken`: reads `process.env.ACCESS_SECRET_TOKEN`
at the call; `jwt.sign` throws when the secret is `undefined`. -/
def signAccessToken (env : Env) (userPayload : UserPayload) (now : Nat) :
    Except SignError Jwt :=
  match env.accessSecretToken with
  | none => .error .missingSecret
  | some s => .ok (jwtSign userPayload s accessLifetime now)

/-- Source `authenticationService.signRefreshToken`: reads `process.env.REFRESH_SECRET_TOKEN`
at the call; `jwt.sign` throws when the secret is `undefined`. -/
def signRefreshToken (env : Env) (userPayload : UserPayload) (now : Nat) :
    Except SignError Jwt :=
  match env.refreshSecretToken with
  | none => .error .missingSecret
  | some s => .ok (jwtSign userPayload s refreshLifetime now)

/-- A Session Registry row (`Token` entity): {token, user_id}. -/
structure TokenRow where
  token : Jwt
  user_id : Nat
deriving DecidableEq, Repr

/-- The Session Registry: the persisted set of refresh-token rows. -/
def Registry := List TokenRow
deriving DecidableEq

/-- Source `authenticationService.createToken` / `createRefreshToken`:
`Token.create({ token, user_id }).save()`. -/
def createToken (user_id : Nat) (token : Jwt) (reg : Registry) : Registry :=
  ⟨token, user_id⟩ :: reg

/-- Modelled from the spec: `deleteToken` is called by the `/logout` route but
its body is not under `src/`; the spec's Session Registry contract says
`delete(token, userId)` "removes the row matching both fields; deleting a
non-existent row is a no-op, not an error". -/
def deleteToken (token : Jwt) (user_id : Nat) (reg : Registry) : Registry :=
  List.filter (fun r => !(r.token == token && r.user_id == user_id)) reg

/-- Modelled from the spec: the Session Registry membership check
`exists(token, userId) -> bool` backing `verifyRefreshIsActive`; its body is not
under `src/`.  A refresh token is active iff a row matching both fields exists. -/
def verifyRefreshIsActive (token : Jwt) (user_id : Nat) (reg : Registry) : Bool :=
  List.any reg (fun r => r.token == token && r.user_id == user_id)

/-- A cookie value as the routes set them: a token, a string, or a number. -/
inductive CookieVal where
  | str : String → CookieVal
  | jwt : Jwt → CookieVal
  | num : Nat → CookieVal
deriving DecidableEq, Repr

/-- The externally observable part of an Express response as the routes build
it: status, body, cookies set, cookies cleared, redirect target. -/
structure Response where
  status : Nat
  body : String
  cookies : List (String × CookieVal)
  cleared : List String
  redirectTo : Option String
deriving DecidableEq, Repr

/-- Model of `res.status(code).send(body)`. -/
def Response.send (status : Nat) (body : String) : Response :=
  ⟨status, body, [], [], none⟩

/-- Persistence calls the routes fire without `await`: the insert of a Session
Registry row (`createToken`) and the insert of a user row (`createUser`). -/
inductive PendingEff where
  | insertToken : Nat → Jwt → PendingEff
  | insertUser : User → PendingEff
deriving DecidableEq, Repr

/-- The persistent state the handlers touch: user table and Session Registry. -/
structure Store where
  users : List User
  registry : Registry
deriving DecidableEq

/-- Apply one pending persistence effect to the store. -/
def applyEff (st : Store) : PendingEff → Store
  | .insertToken uid tok => { st with registry := createToken uid tok st.registry }
  | .insertUser u => { st with users := st.users ++ [u] }

/-- Apply all pending effects in order. -/
def applyAll (effs : List PendingEff) (st : Store) : Store :=
  List.foldl applyEff st effs

/-- The `/register` route handler: look up the login; on a hit respond
`422 user already exists`; otherwise hash the password, fire `createUser`
without awaiting it, and respond `redirect(201, /login)`.  `salt` is the salt
bcrypt draws; `newId` is the id the database would assign. -/
def registerHandler (st : Store) (login password : String) (salt : String)
    (newId : Nat) : Response × List PendingEff :=
  match getUserByLogin st.users login with
  | some _ => (Response.send 422 "user already exists", [])
  | none =>
      let newUser : User := ⟨newId, login, hashPassword password salt⟩
      (⟨201, "", [], [], some "/login"⟩, [.insertUser newUser])

/-- The `/login` route handler: look up the login (miss → `400 Login or
password incorrect`), compare passwords (mismatch → the same response), then
build the `(id, login)` payload, sign the refresh token, fire `createToken`
without awaiting it, sign the access token, set the four cookies and respond
`redirect(200, /)`.  Secrets are taken as present (the success-path model). -/
def loginHandler (st : Store) (login password : String)
    (accessSecret refreshSecret : String) (now : Nat) :
    Response × List PendingEff :=
  match getUserByLogin st.users login with
  | none => (Response.send 400 "Login or password incorrect", [])
  | some user =>
      if !comparePasswords user password then
        (Response.send 400 "Login or password incorrect", [])
      else
        let userPayload : UserPayload := ⟨user.id, user.login⟩
        let refreshToken := jwtSign userPayload refreshSecret refreshLifetime now
        let accessToken := jwtSign userPayload accessSecret accessLifetime now
        (⟨200, "",
          [("accessToken", .jwt accessToken),
           ("refreshToken", .jwt refreshToken),
           ("login", .str user.login),
           ("id", .num user.id)],
          [], some "/"⟩,
         [.insertToken user.id refreshToken])

/-- The `/logout` route handler: unauthenticated callers get
`401 you are not logged in`; authenticated callers get their
`(refreshToken, user.id)` row deleted, the four cookies cleared and
`redirect(200, /)`. -/
def logoutHandler (st : Store) (auth : Bool) (refreshToken : Jwt) (userId : Nat) :
    Response × Store :=
  if !auth then
    (Response.send 401 "you are not logged in", st)
  else
    (⟨200, "", [],
      ["accessToken", "refreshToken", "id", "login"], some "/"⟩,
     { st with registry := deleteToken refreshToken userId st.registry })

/-- Run `/login` to completion, applying its fire-and-forget effects only when
`dbOk` is true (the persistence may still be in flight, or fail). -/
def loginRun (st : Store) (login password : String)
    (accessSecret refreshSecret : String) (now : Nat) (dbOk : Bool) :
    Response × Store :=
  let (resp, effs) := loginHandler st login password accessSecret refreshSecret now
  (resp, if dbOk then applyAll effs st else st)

/-- Run `/register` to completion, applying its fire-and-forget effects only
when `dbOk` is true. -/
def registerRun (st : Store) (login password : String) (salt : String)
    (newId : Nat) (dbOk : Bool) : Response × Store :=
  let (resp, effs) := registerHandler st login password salt newId
  (resp, if dbOk then applyAll effs st else st)

/-! ### Helper lemmas about filtering the Session Registry -/

/-- Filtering out everything that satisfies `p` leaves nothing satisfying `p`. -/
theorem any_filter_not {α : Type} (l : List α) (p : α → Bool) :
    (List.filter (fun a => !p a) l).any p = false := by
  induction l with
  | nil => rfl
  | cons a t ih =>
      by_cases h : p a = true <;> simp [List.filter_cons, h, ih]

/-- Filtering out everything that satisfies `p` is idempotent. -/
theorem filter_not_idem {α : Type} (l : List α) (p : α → Bool) :
    List.filter (fun a => !p a) (List.filter (fun a => !p a) l) =
      List.filter (fun a => !p a) l := by
  induction l with
  | nil => rfl
  | cons a t ih =>
      by_cases h : p a = true <;> simp [List.filter_cons, h, ih]

/-- If nothing in `l` satisfies `p`, filtering `p` out changes nothing. -/
theorem filter_not_of_any_false {α : Type} (l : List α) (p : α → Bool)
    (h : l.any p = false) : List.filter (fun a => !p a) l = l := by
  induction l with
  | nil => rfl
  | cons a t ih =>
      simp only [List.any_cons, Bool.or_eq_false_iff] at h
      simp [List.filter_cons, h.1, ih h.2]

/-! ### Claim theorems -/

/-- C5: access tokens are signed with a fixed 10-second lifetime and refresh
tokens with a fixed 15-day lifetime, so the access lifetime is strictly smaller
than the refresh lifetime; an access token verifies successfully immediately
after issuance and fails verification at any instant once its 10-second
lifetime has elapsed. -/
theorem access_refresh_lifetimes (p : UserPayload) (s r : String)
    (env : Option String) (now t : Nat) :
    accessLifetime = 10 ∧
    refreshLifetime = 15 * 24 * 60 * 60 ∧
    accessLifetime < refreshLifetime ∧
    signAccessToken ⟨some s, env⟩ p now = .ok (jwtSign p s accessLifetime now) ∧
    signRefreshToken ⟨env, some r⟩ p now = .ok (jwtSign p r refreshLifetime now) ∧
    jwtVerify (jwtSign p s accessLifetime now) s now = some p ∧
    jwtVerify (jwtSign p s accessLifetime now) s (now + accessLifetime + t) = none := by
  refine ⟨rfl, rfl, by norm_num [accessLifetime, refreshLifetime], rfl, rfl, ?_, ?_⟩
  · simp [jwtVerify, jwtSign, accessLifetime]
  · simp [jwtVerify, jwtSign]

/-- C2: when the two configured secrets are distinct (as the spec requires of
the configuration), a token produced by `signAccessToken` fails verification
against the refresh secret and a token produced by `signRefreshToken` fails
verification against the access secret, at every instant. -/
theorem cross_secret_verification_fails (p : UserPayload) (a r : String)
    (now now2 : Nat) (h : a ≠ r) :
    signAccessToken ⟨some a, some r⟩ p now = .ok (jwtSign p a accessLifetime now) ∧
    signRefreshToken ⟨some a, some r⟩ p now = .ok (jwtSign p r refreshLifetime now) ∧
    jwtVerify (jwtSign p a accessLifetime now) r now2 = none ∧
    jwtVerify (jwtSign p r refreshLifetime now) a now2 = none := by
  refine ⟨rfl, rfl, ?_, ?_⟩
  · simp [jwtVerify, jwtSign, h]
  · simp [jwtVerify, jwtSign, Ne.symm h]

/-- Witness for C2 at concrete distinct secrets. -/
theorem cross_secret_verification_fails_witness :
    jwtVerify (jwtSign ⟨1, "alice"⟩ "access-secret" accessLifetime 0)
        "refresh-secret" 0 = none ∧
    jwtVerify (jwtSign ⟨1, "alice"⟩ "refresh-secret" refreshLifetime 0)
        "access-secret" 0 = none := by
  have h := cross_secret_verification_fails ⟨1, "alice"⟩ "access-secret"
    "refresh-secret" 0 0 (by decide)
  exact ⟨h.2.2.1, h.2.2.2⟩

/-- C9 (corrected) counterexample: the secrets are read from the ambient
environment at each signing call and nothing checks them at startup, so with
the access secret absent a signing operation fails at request time — refuting
"no signing or verification operation can fail at request time due to a
missing secret". -/
theorem missing_secret_fails_at_request_time :
    signAccessToken ⟨none, some "refresh-secret"⟩ ⟨1, "alice"⟩ 0 =
        .error .missingSecret ∧
    signRefreshToken ⟨some "access-secret", none⟩ ⟨1, "alice"⟩ 0 =
        .error .missingSecret := ⟨rfl, rfl⟩

/-- C9 (amended): each signing call reads its secret from the environment at
request time; if the secret is absent the call itself fails with a
missing-secret error, and if it is present the call signs under it. -/
theorem sign_reads_secret_per_call (env : Env) (p : UserPayload) (now : Nat) :
    (env.accessSecretToken = none →
      signAccessToken env p now = .error .missingSecret) ∧
    (env.refreshSecretToken = none →
      signRefreshToken env p now = .error .missingSecret) ∧
    (∀ s, env.accessSecretToken = some s →
      signAccessToken env p now = .ok (jwtSign p s accessLifetime now)) ∧
    (∀ s, env.refreshSecretToken = some s →
      signRefreshToken env p now = .ok (jwtSign p s refreshLifetime now)) := by
  refine ⟨?_, ?_, ?_, ?_⟩
  · intro h; simp [signAccessToken, h]
  · intro h; simp [signRefreshToken, h]
  · intro s h; simp [signAccessToken, h]
  · intro s h; simp [signRefreshToken, h]

/-- Witness for the amended C9 at a concrete environment. -/
theorem sign_reads_secret_per_call_witness :
    signAccessToken ⟨none, none⟩ ⟨1, "alice"⟩ 0 = .error .missingSecret ∧
    signRefreshToken ⟨none, none⟩ ⟨1, "alice"⟩ 0 = .error .missingSecret ∧
    signAccessToken ⟨some "a", some "r"⟩ ⟨1, "alice"⟩ 0 =
        .ok (jwtSign ⟨1, "alice"⟩ "a" accessLifetime 0) := by
  have h1 := sign_reads_secret_per_call ⟨none, none⟩ ⟨1, "alice"⟩ 0
  have h2 := sign_reads_secret_per_call ⟨some "a", some "r"⟩ ⟨1, "alice"⟩ 0
  exact ⟨h1.1 rfl, h1.2.1 rfl, h2.2.2.1 "a" rfl⟩

/-- C6: `hashPassword` is the salted adaptive hash at cost factor 10 (the salt
is embedded in the output), and in the idealized-bcrypt model: the rendered
hash is never the plaintext, verification of the plaintext against its own
hash succeeds, and verification against the hash of a different plaintext
fails. -/
theorem password_hasher_spec (p q s s2 : String) (hne : p ≠ "") (hq : q ≠ p) :
    (hashPassword p s).cost = 10 ∧
    (hashPassword p s).salt = s ∧
    formatBcryptHash (hashPassword p s) ≠ p ∧
    bcryptCompare p (hashPassword p s) = true ∧
    bcryptCompare p (hashPassword q s2) = false := by
  refine ⟨rfl, rfl, ?_, ?_, ?_⟩
  · intro h
    have hlen := congrArg String.length h
    have h4 : ("$2b$" : String).length = 4 := rfl
    have h10 : (toString (10 : Nat)).length = 2 := rfl
    have h1 : ("$" : String).length = 1 := rfl
    simp only [formatBcryptHash, hashPassword, bcryptHash, bcryptDigest,
      String.length_append, h4, h10, h1] at hlen
    omega
  · simp [bcryptCompare, hashPassword, bcryptHash]
  · simp only [bcryptCompare, hashPassword, bcryptHash, bcryptDigest]
    rw [beq_eq_false_iff_ne]
    intro hc
    have hdata := congrArg String.data hc
    simp only [String.data_append] at hdata
    exact hq (String.ext (List.append_cancel_left hdata)).symm

/-- Witness for C6 at concrete plaintexts and salts. -/
theorem password_hasher_spec_witness :
    (hashPassword "pw1" "saltA").cost = 10 ∧
    formatBcryptHash (hashPassword "pw1" "saltA") ≠ "pw1" ∧
    bcryptCompare "pw1" (hashPassword "pw1" "saltA") = true ∧
    bcryptCompare "pw1" (hashPassword "pw2" "saltB") = false := by
  have h := password_hasher_spec "pw1" "pw2" "saltA" "saltB"
    (by decide) (by decide)
  exact ⟨h.1, h.2.2.1, h.2.2.2.1, h.2.2.2.2⟩

/-- C3 (code bug evidence): at concrete failing inputs the `/login` route
answers both the unknown-login case and the wrong-password case with the
identical response — status 400, body `Login or password incorrect` — so the
two failures are indistinguishable, but the status is 400, not the 401
Unauthorized that the claim (and the route's own swagger annotation) states. -/
theorem login_failure_indistinguishable_but_400 :
    (loginHandler ⟨[], []⟩ "alice" "pw" "a" "r" 0).1 =
        Response.send 400 "Login or password incorrect" ∧
    (loginHandler ⟨[⟨1, "bob", hashPassword "pw" "salt"⟩], []⟩
        "bob" "wrong" "a" "r" 0).1 =
        Response.send 400 "Login or password incorrect" ∧
    (loginHandler ⟨[], []⟩ "alice" "pw" "a" "r" 0).1 =
      (loginHandler ⟨[⟨1, "bob", hashPassword "pw" "salt"⟩], []⟩
        "bob" "wrong" "a" "r" 0).1 ∧
    (loginHandler ⟨[], []⟩ "alice" "pw" "a" "r" 0).1.status ≠ 401 := by
  refine ⟨rfl, ?_, ?_, by decide⟩ <;> rfl

/-- C4: on a valid (login, password) pair, `/login` builds the payload
`(id, login)` from the found user — and nothing else, in particular not the
stored password hash — signs the refresh token over it, fires the Session
Registry insertion of exactly that refresh token, signs the access token over
the same payload, and emits both tokens to the caller as cookies; once the
fired insertion lands, the registry holds the refresh-token row. -/
theorem login_success_issues_both_tokens (st : Store) (login password a r : String)
    (now : Nat) (u : User)
    (hu : getUserByLogin st.users login = some u)
    (hp : comparePasswords u password = true) :
    loginHandler st login password a r now =
      (⟨200, "",
        [("accessToken", .jwt (jwtSign ⟨u.id, u.login⟩ a accessLifetime now)),
         ("refreshToken", .jwt (jwtSign ⟨u.id, u.login⟩ r refreshLifetime now)),
         ("login", .str u.login), ("id", .num u.id)],
        [], some "/"⟩,
       [.insertToken u.id (jwtSign ⟨u.id, u.login⟩ r refreshLifetime now)]) ∧
    (jwtSign ⟨u.id, u.login⟩ a accessLifetime now).payload = ⟨u.id, u.login⟩ ∧
    (jwtSign ⟨u.id, u.login⟩ r refreshLifetime now).payload = ⟨u.id, u.login⟩ ∧
    verifyRefreshIsActive (jwtSign ⟨u.id, u.login⟩ r refreshLifetime now) u.id
      (applyAll (loginHandler st login password a r now).2 st).registry = true := by
  refine ⟨?_, rfl, rfl, ?_⟩
  · simp [loginHandler, hu, hp]
  · simp [loginHandler, hu, hp, applyAll, applyEff, createToken,
      verifyRefreshIsActive]

/-- Witness for C4 at a concrete store and credential pair. -/
theorem login_success_issues_both_tokens_witness :
    loginHandler ⟨[⟨1, "alice", hashPassword "pw1" "s"⟩], []⟩
        "alice" "pw1" "a" "r" 0 =
      (⟨200, "",
        [("accessToken", .jwt (jwtSign ⟨1, "alice"⟩ "a" accessLifetime 0)),
         ("refreshToken", .jwt (jwtSign ⟨1, "alice"⟩ "r" refreshLifetime 0)),
         ("login", .str "alice"), ("id", .num 1)],
        [], some "/"⟩,
       [.insertToken 1 (jwtSign ⟨1, "alice"⟩ "r" refreshLifetime 0)]) := by
  exact (login_success_issues_both_tokens
    ⟨[⟨1, "alice", hashPassword "pw1" "s"⟩], []⟩ "alice" "pw1" "a" "r" 0
    ⟨1, "alice", hashPassword "pw1" "s"⟩ rfl rfl).1

/-- C1: a refresh token issued at login is registered in the Session Registry;
after logout deletes its row, `verifyRefreshIsActive` for that exact
token/user pair returns false even at an instant where the token still
verifies cryptographically (valid signature, embedded expiry not passed):
absence of the row revokes the token regardless of cryptographic validity. -/
theorem logout_revokes_refresh_token (st : Store) (u : User)
    (login password a r : String) (now now2 : Nat)
    (hu : getUserByLogin st.users login = some u)
    (hp : comparePasswords u password = true)
    (hexp : now2 < now + refreshLifetime) :
    jwtVerify (jwtSign ⟨u.id, u.login⟩ r refreshLifetime now) r now2 =
      some ⟨u.id, u.login⟩ ∧
    verifyRefreshIsActive (jwtSign ⟨u.id, u.login⟩ r refreshLifetime now) u.id
      ((loginRun st login password a r now true).2).registry = true ∧
    verifyRefreshIsActive (jwtSign ⟨u.id, u.login⟩ r refreshLifetime now) u.id
      ((logoutHandler (loginRun st login password a r now true).2 true
        (jwtSign ⟨u.id, u.login⟩ r refreshLifetime now) u.id).2).registry = false := by
  refine ⟨by simp [jwtVerify, jwtSign, hexp], ?_, ?_⟩
  · simp [loginRun, loginHandler, hu, hp, applyAll, applyEff, createToken,
      verifyRefreshIsActive]
  · have hreg : ((logoutHandler (loginRun st login password a r now true).2 true
        (jwtSign ⟨u.id, u.login⟩ r refreshLifetime now) u.id).2).registry =
        deleteToken (jwtSign ⟨u.id, u.login⟩ r refreshLifetime now) u.id
          (createToken u.id (jwtSign ⟨u.id, u.login⟩ r refreshLifetime now)
            st.registry) := by
      simp [loginRun, loginHandler, hu, hp, applyAll, applyEff, logoutHandler]
    rw [hreg]
    exact any_filter_not _ _

/-- Witness for C1 at a concrete store, credential pair and clock. -/
theorem logout_revokes_refresh_token_witness :
    jwtVerify (jwtSign ⟨1, "alice"⟩ "r" refreshLifetime 0) "r" 5 =
      some ⟨1, "alice"⟩ ∧
    verifyRefreshIsActive (jwtSign ⟨1, "alice"⟩ "r" refreshLifetime 0) 1
      ((logoutHandler
        (loginRun ⟨[⟨1, "alice", hashPassword "pw1" "s"⟩], []⟩
          "alice" "pw1" "a" "r" 0 true).2 true
        (jwtSign ⟨1, "alice"⟩ "r" refreshLifetime 0) 1).2).registry = false := by
  have h := logout_revokes_refresh_token
    ⟨[⟨1, "alice", hashPassword "pw1" "s"⟩], []⟩
    ⟨1, "alice", hashPassword "pw1" "s"⟩ "alice" "pw1" "a" "r" 0 5
    rfl rfl (by norm_num [refreshLifetime])
  exact ⟨h.1, h.2.2⟩

/-- C8: logout is idempotent — for an authenticated caller the first call
succeeds with status 200, a second call with the same refresh token returns
the same response and leaves the same state, and deleting a row that does not
exist is a no-op that leaves the store untouched rather than an error. -/
theorem logout_idempotent (st : Store) (tok : Jwt) (uid : Nat) (auth : Bool)
    (hauth : auth = true) :
    (logoutHandler st auth tok uid).1.status = 200 ∧
    (logoutHandler ((logoutHandler st auth tok uid).2) auth tok uid).1 =
      (logoutHandler st auth tok uid).1 ∧
    (logoutHandler ((logoutHandler st auth tok uid).2) auth tok uid).2 =
      (logoutHandler st auth tok uid).2 ∧
    (verifyRefreshIsActive tok uid st.registry = false →
      (logoutHandler st auth tok uid).2 = st) := by
  subst hauth
  obtain ⟨us, reg⟩ := st
  refine ⟨rfl, rfl, ?_, ?_⟩
  · simp only [logoutHandler, Bool.not_true, Bool.false_eq_true, if_false,
      Store.mk.injEq, true_and]
    exact filter_not_idem reg _
  · intro h
    simp only [logoutHandler, Bool.not_true, Bool.false_eq_true, if_false,
      Store.mk.injEq, true_and]
    exact filter_not_of_any_false reg _ h

/-- Witness for C8: a double logout on a one-row registry, and a logout on an
empty registry, at concrete inputs. -/
theorem logout_idempotent_witness :
    (logoutHandler
      ((logoutHandler ⟨[], [⟨jwtSign ⟨1, "alice"⟩ "r" refreshLifetime 0, 1⟩]⟩
        true (jwtSign ⟨1, "alice"⟩ "r" refreshLifetime 0) 1).2)
      true (jwtSign ⟨1, "alice"⟩ "r" refreshLifetime 0) 1).2 =
      (logoutHandler ⟨[], [⟨jwtSign ⟨1, "alice"⟩ "r" refreshLifetime 0, 1⟩]⟩
        true (jwtSign ⟨1, "alice"⟩ "r" refreshLifetime 0) 1).2 ∧
    (logoutHandler ⟨[], []⟩ true (jwtSign ⟨1, "alice"⟩ "r" refreshLifetime 0) 1).2 =
      (⟨[], []⟩ : Store) := by
  have h1 := logout_idempotent
    ⟨[], [⟨jwtSign ⟨1, "alice"⟩ "r" refreshLifetime 0, 1⟩]⟩
    (jwtSign ⟨1, "alice"⟩ "r" refreshLifetime 0) 1 true rfl
  have h2 := logout_idempotent ⟨[], []⟩
    (jwtSign ⟨1, "alice"⟩ "r" refreshLifetime 0) 1 true rfl
  exact ⟨h1.2.2.1, h2.2.2.2 rfl⟩

/-- C7: `/register` rejects an existing login with `422 user already exists`
and creates nothing; on a fresh login it hashes the password and creates the
user; in neither case does it set a token cookie or touch the Session
Registry. -/
theorem register_conflict_or_create (st : Store) (login password salt : String)
    (newId : Nat) :
    (registerHandler st login password salt newId).1.cookies = [] ∧
    (applyAll (registerHandler st login password salt newId).2 st).registry =
      st.registry ∧
    ((getUserByLogin st.users login).isSome = true →
      registerHandler st login password salt newId =
        (Response.send 422 "user already exists", []) ∧
      applyAll (registerHandler st login password salt newId).2 st = st) ∧
    (getUserByLogin st.users login = none →
      registerHandler st login password salt newId =
        (⟨201, "", [], [], some "/login"⟩,
         [.insertUser ⟨newId, login, hashPassword password salt⟩]) ∧
      (applyAll (registerHandler st login password salt newId).2 st).users =
        st.users ++ [⟨newId, login, hashPassword password salt⟩]) := by
  obtain ⟨us, reg⟩ := st
  cases h : getUserByLogin us login with
  | some u => simp [registerHandler, h, applyAll, applyEff, Response.send]
  | none => simp [registerHandler, h, applyAll, applyEff]

/-- Witness for C7: a duplicate registration and a fresh registration at
concrete inputs. -/
theorem register_conflict_or_create_witness :
    registerHandler ⟨[⟨1, "alice", hashPassword "pw1" "s"⟩], []⟩
        "alice" "pw9" "s9" 2 =
      (Response.send 422 "user already exists", []) ∧
    (applyAll (registerHandler ⟨[], []⟩ "alice" "pw1" "s" 1).2 ⟨[], []⟩).users =
      [⟨1, "alice", hashPassword "pw1" "s"⟩] := by
  have h1 := (register_conflict_or_create
    ⟨[⟨1, "alice", hashPassword "pw1" "s"⟩], []⟩ "alice" "pw9" "s9" 2).2.2.1 rfl
  have h2 := (register_conflict_or_create ⟨[], []⟩ "alice" "pw1" "s" 1).2.2.2 rfl
  exact ⟨h1.1, by simpa using h2.2⟩

/-- C10: the `/login` success response is produced without awaiting the Session
Registry insertion (the response is identical whether or not the fired insert
has completed or succeeds, and at response time the refresh-token row does not
yet exist), and the `/register` success response is likewise produced without
awaiting user creation (identical response either way, user row absent at
response time). -/
theorem success_response_before_persistence (st : Store) (l1 p1 a r : String)
    (now : Nat) (u : User) (l2 p2 salt : String) (newId : Nat)
    (hu : getUserByLogin st.users l1 = some u)
    (hp : comparePasswords u p1 = true)
    (hfresh : verifyRefreshIsActive (jwtSign ⟨u.id, u.login⟩ r refreshLifetime now)
        u.id st.registry = false)
    (hnew : getUserByLogin st.users l2 = none) :
    (∀ ok1 ok2 : Bool,
      (loginRun st l1 p1 a r now ok1).1 = (loginRun st l1 p1 a r now ok2).1) ∧
    (loginRun st l1 p1 a r now false).2 = st ∧
    (loginRun st l1 p1 a r now true).1.status = 200 ∧
    verifyRefreshIsActive (jwtSign ⟨u.id, u.login⟩ r refreshLifetime now) u.id
      ((loginRun st l1 p1 a r now false).2).registry = false ∧
    (∀ ok1 ok2 : Bool,
      (registerRun st l2 p2 salt newId ok1).1 =
        (registerRun st l2 p2 salt newId ok2).1) ∧
    (registerRun st l2 p2 salt newId false).2 = st ∧
    (registerRun st l2 p2 salt newId true).1.status = 201 ∧
    getUserByLogin ((registerRun st l2 p2 salt newId false).2).users l2 = none := by
  refine ⟨fun ok1 ok2 => rfl, rfl, ?_, hfresh, fun ok1 ok2 => rfl, rfl, ?_, hnew⟩
  · simp [loginRun, loginHandler, hu, hp]
  · simp [registerRun, registerHandler, hnew]

/-- Witness for C10 at a concrete store: a valid login for `alice` and a fresh
registration for `bob`. -/
theorem success_response_before_persistence_witness :
    (loginRun ⟨[⟨1, "alice", hashPassword "pw1" "s"⟩], []⟩
        "alice" "pw1" "a" "r" 0 false).2 =
      (⟨[⟨1, "alice", hashPassword "pw1" "s"⟩], []⟩ : Store) ∧
    (loginRun ⟨[⟨1, "alice", hashPassword "pw1" "s"⟩], []⟩
        "alice" "pw1" "a" "r" 0 true).1.status = 200 ∧
    verifyRefreshIsActive (jwtSign ⟨1, "alice"⟩ "r" refreshLifetime 0) 1
      ((loginRun ⟨[⟨1, "alice", hashPassword "pw1" "s"⟩], []⟩
        "alice" "pw1" "a" "r" 0 false).2).registry = false ∧
    (registerRun ⟨[⟨1, "alice", hashPassword "pw1" "s"⟩], []⟩
        "bob" "pw2" "s2" 2 true).1.status = 201 := by
  have h := success_response_before_persistence
    ⟨[⟨1, "alice", hashPassword "pw1" "s"⟩], []⟩ "alice" "pw1" "a" "r" 0
    ⟨1, "alice", hashPassword "pw1" "s"⟩ "bob" "pw2" "s2" 2
    rfl rfl rfl rfl
  exact ⟨h.2.1, h.2.2.1, h.2.2.2.1, h.2.2.2.2.2.2.1⟩
